import Mathlib

/-!
Shallow embedding of the Titan-Menu remote device access orchestrator
(`titan_menu/ssh_remote.py`, `titan_menu/ssh_parsers.py`,
`titan_menu/ssh_config.py`, `titan_menu/nre_jumpbox.py`,
`titan_menu/bastion_manager.py`).

Python strings are modelled as lists of code points (`List Nat`); the
string methods used by the code (`upper`, `lower`, `strip`, `split`,
slicing, containment) are modelled on ASCII, which covers every string
the code manipulates.  Python dicts with string keys are modelled as
association lists preserving insertion order, exactly as CPython does.
Network effects (`paramiko` calls) are modelled as oracle functions
passed explicitly; every run returns the list of attempted usernames /
hosts so that "number of network calls" is observable.
-/

set_option autoImplicit false

namespace TitanMenu

/-- A Python string as a list of Unicode code points. -/
abbrev PyStr := List Nat

/-- Convert a Lean string literal to its code-point list. -/
def pyStr (s : String) : PyStr := s.data.map Char.toNat

/-- ASCII uppercase letter test on a code point. -/
def isUpperCp (n : Nat) : Bool := decide (65 ≤ n) && decide (n ≤ 90)

/-- ASCII lowercase letter test on a code point. -/
def isLowerCp (n : Nat) : Bool := decide (97 ≤ n) && decide (n ≤ 122)

/-- Whitespace code points removed by Python `str.strip` (ASCII range). -/
def isSpaceCp (n : Nat) : Bool :=
  decide (n = 32) || decide (n = 9) || decide (n = 10) || decide (n = 13) ||
  decide (n = 11) || decide (n = 12)

/-- ASCII digit test on a code point. -/
def isDigitCp (n : Nat) : Bool := decide (48 ≤ n) && decide (n ≤ 57)

/-- Character class `[\d.]` of the version-number regexes. -/
def isDigitDotCp (n : Nat) : Bool := isDigitCp n || decide (n = 46)

/-- Character class `[A-Z0-9]` of the serial-number regex. -/
def isUpperDigitCp (n : Nat) : Bool := isUpperCp n || isDigitCp n

/-- Python `str.lower` on one code point (ASCII). -/
def charLowerCp (n : Nat) : Nat := if isUpperCp n then n + 32 else n

/-- Python `str.upper` on one code point (ASCII). -/
def charUpperCp (n : Nat) : Nat := if isLowerCp n then n - 32 else n

/-- Python `s.lower()`. -/
def pyLower (s : PyStr) : PyStr := s.map charLowerCp

/-- Python `s.upper()`. -/
def pyUpper (s : PyStr) : PyStr := s.map charUpperCp

/-- Python `s.strip()`. -/
def pyStrip (s : PyStr) : PyStr :=
  ((s.dropWhile isSpaceCp).reverse.dropWhile isSpaceCp).reverse

/-- Python substring containment `needle in hay`. -/
def pyIn (needle hay : PyStr) : Bool := decide (needle <:+: hay)

/-- Helper for `pySplit`, accumulating the current chunk in reverse. -/
def pySplitAux (sep : Nat) : List Nat → List Nat → List PyStr
  | cur, [] => [cur.reverse]
  | cur, c :: rest =>
    if c = sep then cur.reverse :: pySplitAux sep [] rest
    else pySplitAux sep (c :: cur) rest

/-- Python `s.split(sep)` for a one-character separator. -/
def pySplit (sep : Nat) (s : PyStr) : List PyStr := pySplitAux sep [] s

/-- Python dict lookup `d.get(k)` on an insertion-ordered association list. -/
def dictGet? {V : Type} (d : List (PyStr × V)) (k : PyStr) : Option V :=
  (d.find? (fun kv => kv.1 == k)).map (·.2)

/-- Python dict assignment `d[k] = v`: overwrite in place or append. -/
def dictSet {V : Type} (d : List (PyStr × V)) (k : PyStr) (v : V) : List (PyStr × V) :=
  if d.any (fun kv => kv.1 == k) then
    d.map (fun kv => if kv.1 == k then (k, v) else kv)
  else d ++ [(k, v)]

/-- Helper for `dedupFirst`: drop elements already seen. -/
def dedupFirstAux : List PyStr → List PyStr → List PyStr
  | _, [] => []
  | seen, x :: xs =>
    if x ∈ seen then dedupFirstAux seen xs
    else x :: dedupFirstAux (x :: seen) xs

/-- Python `list(dict.fromkeys(l))`: remove duplicates keeping first occurrences. -/
def dedupFirst (l : List PyStr) : List PyStr := dedupFirstAux [] l

/-- Python `str(n)` for a natural number. -/
def natToStr (n : Nat) : PyStr := (Nat.toDigits 10 n).map Char.toNat

/-! ## Configuration tables (`ssh_config.py`) -/

/-- `DEFAULT_USERNAMES` from `ssh_config.py`. -/
def DEFAULT_USERNAMES : List PyStr :=
  [pyStr ("vn59iz6"), pyStr ("neteng"), pyStr ("admin"), pyStr ("netman"),
   pyStr ("svc_netman"), pyStr ("bvneteng"), pyStr ("bootstrap"), pyStr ("vendor"),
   pyStr ("nettitansvc"), pyStr ("gec_netengmonitor"), pyStr ("svc_netengmonitor")]

/-- `DEVICE_SPECIFIC_USERNAMES` from `ssh_config.py`. -/
def DEVICE_SPECIFIC_USERNAMES : List (PyStr × List PyStr) :=
  [(pyStr ("cisco_ios"),
    [pyStr ("vn59iz6"), pyStr ("admin"), pyStr ("netadmin"), pyStr ("operator"),
     pyStr ("root"), pyStr ("network"), pyStr ("automation"), pyStr ("neteng")]),
   (pyStr ("arista_eos"),
    [pyStr ("admin"), pyStr ("automation"), pyStr ("netadmin"), pyStr ("operator"),
     pyStr ("neteng")]),
   (pyStr ("juniper_junos"),
    [pyStr ("root"), pyStr ("admin"), pyStr ("netops"), pyStr ("automation"),
     pyStr ("neteng")]),
   (pyStr ("sonic_cli"),
    [pyStr ("admin"), pyStr ("netadmin"), pyStr ("automation"), pyStr ("neteng")])]

/-- `CISCO_IOS_USERNAMES` from `ssh_config.py`. -/
def CISCO_IOS_USERNAMES : List PyStr :=
  [pyStr ("admin"), pyStr ("root"), pyStr ("netadmin"), pyStr ("operator"),
   pyStr ("network"), pyStr ("monitor"), pyStr ("view"), pyStr ("automation"),
   pyStr ("service"), pyStr ("support"), pyStr ("neteng"), pyStr ("netman"),
   pyStr ("bootstrap")]

/-- `OS_TYPES` normalization table from `ssh_config.py`. -/
def OS_TYPES : List (PyStr × PyStr) :=
  [(pyStr ("IOS"), pyStr ("cisco_ios")),
   (pyStr ("EOS"), pyStr ("arista_eos")),
   (pyStr ("JUNOS"), pyStr ("juniper_junos")),
   (pyStr ("SONIC"), pyStr ("sonic_cli"))]

/-- `SHOW_COMMANDS` per-OS command tables from `ssh_config.py`. -/
def SHOW_COMMANDS : List (PyStr × List (PyStr × PyStr)) :=
  [(pyStr ("cisco_ios"),
    [(pyStr ("version"), pyStr ("show version")),
     (pyStr ("bgp_summary"), pyStr ("show ip bgp summary")),
     (pyStr ("interfaces"), pyStr ("show interfaces brief")),
     (pyStr ("routes"), pyStr ("show ip route")),
     (pyStr ("neighbors"), pyStr ("show cdp neighbors brief"))]),
   (pyStr ("arista_eos"),
    [(pyStr ("version"), pyStr ("show version")),
     (pyStr ("bgp_summary"), pyStr ("show ip bgp summary")),
     (pyStr ("interfaces"), pyStr ("show interfaces brief")),
     (pyStr ("routes"), pyStr ("show ip route")),
     (pyStr ("neighbors"), pyStr ("show lldp neighbors"))]),
   (pyStr ("juniper_junos"),
    [(pyStr ("version"), pyStr ("show version")),
     (pyStr ("bgp_summary"), pyStr ("show bgp summary")),
     (pyStr ("interfaces"), pyStr ("show interfaces brief")),
     (pyStr ("routes"), pyStr ("show route")),
     (pyStr ("neighbors"), pyStr ("show lldp neighbors"))]),
   (pyStr ("sonic_cli"),
    [(pyStr ("version"), pyStr ("show version")),
     (pyStr ("bgp_summary"), pyStr ("show ip bgp summary")),
     (pyStr ("interfaces"), pyStr ("show interfaces brief")),
     (pyStr ("routes"), pyStr ("show ip route")),
     (pyStr ("neighbors"), pyStr ("show lldp neighbors"))])]

/-! ## Output parsers (`ssh_parsers.py`)

Parsed output dictionaries map string keys to either string or integer
values (`BGP_Neighbors` is an `int` in the source). -/

/-- A value stored in a parsed-output dictionary. -/
inductive PVal where
  | s : PyStr → PVal
  | n : Nat → PVal
deriving DecidableEq

/-- An insertion-ordered parsed-output dictionary. -/
abbrev PDict := List (PyStr × PVal)

/-- Python `data or fallback` on dictionaries: an empty dict is falsy. -/
def pyDictOr (d fallback : PDict) : PDict := if d.isEmpty then fallback else d

/-- `re.search` driver: try a fixed-position matcher at every start
position, leftmost first (also at the end-of-string position). -/
def reSearch {α : Type} (m : List Nat → Option α) : List Nat → Option α
  | [] => m []
  | s@(_ :: t) =>
    match m s with
    | some r => some r
    | none => reSearch m t

/-- Lazy capture tail of `r"Cisco (.*?) Software"`: the shortest run of
non-newline code points followed by the literal `" Software"`. -/
def ciscoModelCapture : List Nat → Option (List Nat)
  | [] => none
  | c :: t =>
    if decide ((pyStr (" Software")) <+: (c :: t)) then some []
    else if c = 10 then none
    else (ciscoModelCapture t).map (fun g => c :: g)

/-- Fixed-position matcher for `r"Cisco (.*?) Software"`. -/
def matchCiscoModelAt (s : List Nat) : Option (List Nat) :=
  if decide ((pyStr ("Cisco ")) <+: s) then ciscoModelCapture (s.drop 6) else none

/-- Fixed-position matcher for a literal followed by `\s+([\d.]+)`
(used for `r"Version\s+([\d.]+)"` and `r"Release\s+([\d.]+)"`; the
character classes are disjoint, so greedy matching needs no backtracking). -/
def litWsDigitsAt (lit : PyStr) (s : List Nat) : Option (List Nat) :=
  if decide (lit <+: s) then
    let r := s.drop lit.length
    if (r.takeWhile isSpaceCp).isEmpty then none
    else
      let g := (r.dropWhile isSpaceCp).takeWhile isDigitDotCp
      if g.isEmpty then none else some g
  else none

/-- Fixed-position matcher for `r"uptime is (.+)$"` with `re.MULTILINE`:
greedy run of non-newline code points, at least one, up to end of line. -/
def matchUptimeAt (s : List Nat) : Option (List Nat) :=
  if decide ((pyStr ("uptime is ")) <+: s) then
    let g := (s.drop 10).takeWhile (fun c => decide (c ≠ 10))
    if g.isEmpty then none else some g
  else none

/-- Fixed-position matcher for `r"Serial Number\s*:\s*([A-Z0-9]+)"`. -/
def matchSerialAt (s : List Nat) : Option (List Nat) :=
  if decide ((pyStr ("Serial Number")) <+: s) then
    match (s.drop 13).dropWhile isSpaceCp with
    | 58 :: r2 =>
      let g := (r2.dropWhile isSpaceCp).takeWhile isUpperDigitCp
      if g.isEmpty then none else some g
    | _ => none
  else none

/-- Fixed-position matcher for `r"([0-9.]+),"`. -/
def matchIpCommaAt (s : List Nat) : Option (List Nat) :=
  let g := s.takeWhile isDigitDotCp
  if g.isEmpty then none
  else
    match s.drop g.length with
    | 44 :: _ => some g
    | _ => none

/-- Fixed-position matcher for `r"AS (\d+)"`. -/
def matchAsNumberAt (s : List Nat) : Option (List Nat) :=
  if decide ((pyStr ("AS ")) <+: s) then
    let g := (s.drop 3).takeWhile isDigitCp
    if g.isEmpty then none else some g
  else none

/-- Consume one or more digits, returning the rest. -/
def chompDigits1 (s : List Nat) : Option (List Nat) :=
  let g := s.takeWhile isDigitCp
  if g.isEmpty then none else some (s.drop g.length)

/-- `re.match(r"^\s*\d+\.\d+\.\d+\.\d+", line)` viewed as a Boolean. -/
def matchIPv4Lead (s : List Nat) : Bool :=
  match chompDigits1 (s.dropWhile isSpaceCp) with
  | none => false
  | some r1 =>
    match r1 with
    | 46 :: r1b =>
      match chompDigits1 r1b with
      | none => false
      | some r2 =>
        match r2 with
        | 46 :: r2b =>
          match chompDigits1 r2b with
          | none => false
          | some r3 =>
            match r3 with
            | 46 :: r3b => (chompDigits1 r3b).isSome
            | _ => false
        | _ => false
    | _ => false

/-- Field extraction of `OutputParser._parse_cisco_version` before the
raw-output fallback. -/
def ciscoVersionData (output : PyStr) : PDict :=
  let d : PDict := []
  let d := match reSearch matchCiscoModelAt output with
    | some g => dictSet d (pyStr ("Model")) (.s (pyStrip g))
    | none => d
  let d := match reSearch (litWsDigitsAt (pyStr ("Version"))) output with
    | some g => dictSet d (pyStr ("IOS_Version")) (.s g)
    | none => d
  let d := match reSearch matchUptimeAt output with
    | some g => dictSet d (pyStr ("Uptime")) (.s (pyStrip g))
    | none => d
  let d := match reSearch matchSerialAt output with
    | some g => dictSet d (pyStr ("Serial")) (.s g)
    | none => d
  d

/-- `OutputParser._parse_cisco_version`. -/
def parseCiscoVersion (output : PyStr) : PDict :=
  pyDictOr (ciscoVersionData output) [(pyStr ("raw_output"), .s (output.take 500))]

/-- One line of the loop in `OutputParser._parse_arista_version`. -/
def aristaVersionLine (d : PDict) (line : PyStr) : PDict :=
  if pyIn (pyStr ("Model:")) line then
    dictSet d (pyStr ("Model")) (.s (pyStrip ((pySplit 58 line).getD 1 [])))
  else if pyIn (pyStr ("System uptime:")) line then
    dictSet d (pyStr ("Uptime")) (.s (pyStrip ((pySplit 58 line).getD 1 [])))
  else if pyIn (pyStr ("Software image version:")) line then
    dictSet d (pyStr ("EOS_Version")) (.s (pyStrip ((pySplit 58 line).getD 1 [])))
  else if pyIn (pyStr ("Serial number:")) line then
    dictSet d (pyStr ("Serial")) (.s (pyStrip ((pySplit 58 line).getD 1 [])))
  else d

/-- Field extraction of `OutputParser._parse_arista_version`. -/
def aristaVersionData (output : PyStr) : PDict :=
  (pySplit 10 output).foldl aristaVersionLine []

/-- `OutputParser._parse_arista_version`. -/
def parseAristaVersion (output : PyStr) : PDict :=
  pyDictOr (aristaVersionData output) [(pyStr ("raw_output"), .s (output.take 500))]

/-- One line of the loop in `OutputParser._parse_juniper_version`. -/
def juniperVersionLine (d : PDict) (line : PyStr) : PDict :=
  if pyIn (pyStr ("Model:")) line then
    dictSet d (pyStr ("Model")) (.s (pyStrip ((pySplit 58 line).getD 1 [])))
  else if pyIn (pyStr ("JUNOS Software Release")) line then
    match reSearch (litWsDigitsAt (pyStr ("Release"))) line with
    | some g => dictSet d (pyStr ("JUNOS_Version")) (.s g)
    | none => d
  else if pyIn (pyStr ("Serial ID:")) line then
    dictSet d (pyStr ("Serial")) (.s (pyStrip ((pySplit 58 line).getD 1 [])))
  else d

/-- Field extraction of `OutputParser._parse_juniper_version`. -/
def juniperVersionData (output : PyStr) : PDict :=
  (pySplit 10 output).foldl juniperVersionLine []

/-- `OutputParser._parse_juniper_version`. -/
def parseJuniperVersion (output : PyStr) : PDict :=
  pyDictOr (juniperVersionData output) [(pyStr ("raw_output"), .s (output.take 500))]

/-- One line of the loop in `OutputParser._parse_sonic_version`. -/
def sonicVersionLine (d : PDict) (line : PyStr) : PDict :=
  if pyIn (pyStr ("Platform:")) line then
    dictSet d (pyStr ("Platform")) (.s (pyStrip ((pySplit 58 line).getD 1 [])))
  else if pyIn (pyStr ("SONiC Software Version:")) line then
    dictSet d (pyStr ("Sonic_Version")) (.s (pyStrip ((pySplit 58 line).getD 1 [])))
  else if pyIn (pyStr ("System uptime:")) line then
    dictSet d (pyStr ("Uptime")) (.s (pyStrip ((pySplit 58 line).getD 1 [])))
  else d

/-- Field extraction of `OutputParser._parse_sonic_version`. -/
def sonicVersionData (output : PyStr) : PDict :=
  (pySplit 10 output).foldl sonicVersionLine []

/-- `OutputParser._parse_sonic_version`. -/
def parseSonicVersion (output : PyStr) : PDict :=
  pyDictOr (sonicVersionData output) [(pyStr ("raw_output"), .s (output.take 500))]

/-- `OutputParser.parse_show_version`: OS dispatch with raw fallback
for unknown tags. -/
def parse_show_version (output os_type : PyStr) : PDict :=
  if os_type = pyStr ("cisco_ios") then parseCiscoVersion output
  else if os_type = pyStr ("arista_eos") then parseAristaVersion output
  else if os_type = pyStr ("juniper_junos") then parseJuniperVersion output
  else if os_type = pyStr ("sonic_cli") then parseSonicVersion output
  else [(pyStr ("raw_output"), .s output)]

/-- Router-identifier pass of `OutputParser._parse_cisco_bgp`. -/
def ciscoBgpRouterId (d : PDict) (line : PyStr) : PDict :=
  if pyIn (pyStr ("BGP router identifier")) line then
    match reSearch matchIpCommaAt line with
    | some g => dictSet d (pyStr ("Router_ID")) (.s g)
    | none => d
  else d

/-- The neighbor-line test of `OutputParser._parse_cisco_bgp`. -/
def ciscoBgpNeighborLine (line : PyStr) : Bool :=
  pyIn (pyStr ("neighbor")) (pyLower line) &&
    (pyIn (pyStr ("up")) (pyLower line) || pyIn (pyStr ("down")) (pyLower line))

/-- Field extraction of `OutputParser._parse_cisco_bgp`. -/
def ciscoBgpData (output : PyStr) : PDict :=
  let lines := pySplit 10 output
  let d := lines.foldl ciscoBgpRouterId []
  let ncount := (lines.filter ciscoBgpNeighborLine).length
  if 0 < ncount then dictSet d (pyStr ("BGP_Neighbors")) (.n ncount) else d

/-- `OutputParser._parse_cisco_bgp`. -/
def parseCiscoBgp (output : PyStr) : PDict :=
  pyDictOr (ciscoBgpData output) [(pyStr ("raw_output"), .s (output.take 500))]

/-- AS-number pass of `OutputParser._parse_arista_bgp`. -/
def aristaBgpAsLine (d : PDict) (line : PyStr) : PDict :=
  if pyIn (pyStr ("BGP summary")) line then
    match reSearch matchAsNumberAt line with
    | some g => dictSet d (pyStr ("AS_Number")) (.s g)
    | none => d
  else d

/-- Field extraction of `OutputParser._parse_arista_bgp`. -/
def aristaBgpData (output : PyStr) : PDict :=
  let lines := pySplit 10 output
  let d := lines.foldl aristaBgpAsLine []
  let ncount := (lines.filter matchIPv4Lead).length
  if 0 < ncount then dictSet d (pyStr ("BGP_Neighbors")) (.n ncount) else d

/-- `OutputParser._parse_arista_bgp`. -/
def parseAristaBgp (output : PyStr) : PDict :=
  pyDictOr (aristaBgpData output) [(pyStr ("raw_output"), .s (output.take 500))]

/-- One line of the loop in `OutputParser._parse_juniper_bgp`. -/
def juniperBgpLine (d : PDict) (line : PyStr) : PDict :=
  if pyIn (pyStr ("Router ID:")) line then
    dictSet d (pyStr ("Router_ID")) (.s (pyStrip ((pySplit 58 line).getD 1 [])))
  else if pyIn (pyStr ("Local AS:")) line then
    dictSet d (pyStr ("AS_Number")) (.s (pyStrip ((pySplit 58 line).getD 1 [])))
  else d

/-- Field extraction of `OutputParser._parse_juniper_bgp`. -/
def juniperBgpData (output : PyStr) : PDict :=
  (pySplit 10 output).foldl juniperBgpLine []

/-- `OutputParser._parse_juniper_bgp`. -/
def parseJuniperBgp (output : PyStr) : PDict :=
  pyDictOr (juniperBgpData output) [(pyStr ("raw_output"), .s (output.take 500))]

/-- Field extraction of `OutputParser._parse_sonic_bgp`. -/
def sonicBgpData (output : PyStr) : PDict :=
  let ncount := ((pySplit 10 output).filter matchIPv4Lead).length
  if 0 < ncount then dictSet [] (pyStr ("BGP_Neighbors")) (.n ncount) else []

/-- `OutputParser._parse_sonic_bgp`. -/
def parseSonicBgp (output : PyStr) : PDict :=
  pyDictOr (sonicBgpData output) [(pyStr ("raw_output"), .s (output.take 500))]

/-- `OutputParser.parse_bgp_summary`: OS dispatch with raw fallback
for unknown tags. -/
def parse_bgp_summary (output os_type : PyStr) : PDict :=
  if os_type = pyStr ("cisco_ios") then parseCiscoBgp output
  else if os_type = pyStr ("arista_eos") then parseAristaBgp output
  else if os_type = pyStr ("juniper_junos") then parseJuniperBgp output
  else if os_type = pyStr ("sonic_cli") then parseSonicBgp output
  else [(pyStr ("raw_output"), .s output)]

/-- The four OS tags with their own parser branch. -/
def knownOsTag (os : PyStr) : Bool :=
  decide (os ∈ [pyStr ("cisco_ios"), pyStr ("arista_eos"),
                pyStr ("juniper_junos"), pyStr ("sonic_cli")])

/-- The fields `parse_show_version` extracts before any fallback
(empty for tags with no parser branch, where no extraction is attempted). -/
def versionFields (output os_type : PyStr) : PDict :=
  if os_type = pyStr ("cisco_ios") then ciscoVersionData output
  else if os_type = pyStr ("arista_eos") then aristaVersionData output
  else if os_type = pyStr ("juniper_junos") then juniperVersionData output
  else if os_type = pyStr ("sonic_cli") then sonicVersionData output
  else []

/-- The fields `parse_bgp_summary` extracts before any fallback. -/
def bgpFields (output os_type : PyStr) : PDict :=
  if os_type = pyStr ("cisco_ios") then ciscoBgpData output
  else if os_type = pyStr ("arista_eos") then aristaBgpData output
  else if os_type = pyStr ("juniper_junos") then juniperBgpData output
  else if os_type = pyStr ("sonic_cli") then sonicBgpData output
  else []

/-! ## Device command runner (`ssh_remote.py`, class `DeviceCommandRunner`)

The method `execute_command_on_device` of the connector is an effect; it is modelled
as an explicit oracle `ex : device_ip → username → command → Bool × PyStr`
returning the `(success, output)` pair.  Results carry the ordered list
of usernames actually passed to the oracle so call counts are observable. -/

/-- The mutable attributes of a `DeviceCommandRunner`. -/
structure RunnerSt where
  device_ip : PyStr
  device_os : PyStr
  usernames : List PyStr
  current_username : Option PyStr
  authenticated : Bool
  failed_usernames : List PyStr
deriving DecidableEq

/-- A connector oracle: `(device_ip, username, command) ↦ (success, output)`. -/
abbrev ExecOracle := PyStr → PyStr → PyStr → Bool × PyStr

/-- `DeviceCommandRunner._normalize_os_type`: exact table key match,
then bidirectional substring match, then best-effort lowercase. -/
def normalize_os_type (os_type : PyStr) : PyStr :=
  let os_upper := pyStrip (pyUpper os_type)
  match OS_TYPES.find? (fun kv => kv.1 == os_upper) with
  | some kv => kv.2
  | none =>
    match OS_TYPES.find? (fun kv => pyIn kv.1 os_upper || pyIn os_upper kv.1) with
    | some kv => kv.2
    | none => pyLower os_upper

/-- `DeviceCommandRunner._build_username_list`. -/
def build_username_list (device_os : PyStr) : List PyStr :=
  let device_specific := (dictGet? DEVICE_SPECIFIC_USERNAMES device_os).getD []
  let usernames := dedupFirst (device_specific ++ DEFAULT_USERNAMES)
  if pyIn (pyStr ("cisco")) (pyLower device_os) then
    usernames ++ CISCO_IOS_USERNAMES.filter (fun u => decide (u ∉ usernames))
  else usernames

/-- The username-list shape the specification describes: OS-specific
names first, then the global defaults minus duplicates, then (only for
Cisco-family tags) the remaining Cisco extras not already present.
This is the refinement target `build_username_list` is compared with. -/
def specUsernameList (device_os : PyStr) : List PyStr :=
  let ds := (dictGet? DEVICE_SPECIFIC_USERNAMES device_os).getD []
  let base := ds ++ DEFAULT_USERNAMES.filter (fun u => decide (u ∉ ds))
  if pyIn (pyStr ("cisco")) (pyLower device_os) then
    base ++ CISCO_IOS_USERNAMES.filter (fun u => decide (u ∉ base))
  else base

/-- `DeviceCommandRunner.get_available_commands`. -/
def get_available_commands (device_os : PyStr) : List (PyStr × PyStr) :=
  (dictGet? SHOW_COMMANDS device_os).getD [(pyStr ("custom"), pyStr ("custom command"))]

/-- The username-acceptance test of `DeviceCommandRunner.run_command`:
`if success and output and "permission denied" not in output.lower()`. -/
def acceptedOutput (success : Bool) (output : PyStr) : Bool :=
  success && !output.isEmpty && !(pyIn (pyStr ("permission denied")) (pyLower output))

/-- The acceptance rule as the specification words it (command succeeded
and the output does not case-insensitively contain "permission denied");
the refinement target `acceptedOutput` is compared with. -/
def claimedAccept (success : Bool) (output : PyStr) : Bool :=
  success && !(pyIn (pyStr ("permission denied")) (pyLower output))

/-- `DeviceCommandRunner._build_auth_failure_message`. -/
def build_auth_failure_message (st : RunnerSt) : PyStr :=
  pyStr ("Authentication failed. ") ++
  pyStr ("Tried ") ++ natToStr st.failed_usernames.length ++ pyStr (" username(s): ") ++
  List.intercalate (pyStr (", ")) (st.failed_usernames.take 3) ++
  pyStr ("\n\nTroubleshooting steps:\n") ++
  pyStr ("1. Check device SSH config: show ip ssh\n") ++
  pyStr ("2. Check your user account exists on device\n") ++
  pyStr ("3. Verify your AD account has device access\n") ++
  pyStr ("4. Contact network team: nocenterprise@wal-mart.com\n") ++
  pyStr ("\nNote: This device requires specific username(s).") ++
  pyStr ("\nDevice type: ") ++ st.device_os

/-- The unsupported-command error text of `run_command`
(Command quote alias quote not available for os; 39 is the quote character). -/
def unsupportedCommandMsg (cmdAlias device_os : PyStr) : PyStr :=
  pyStr ("Command ") ++ [39] ++ cmdAlias ++ [39] ++
  pyStr (" not available for ") ++ device_os

/-- The result of one `run_command` invocation: the returned
`(success, dict)` pair, the runner state afterwards, and the usernames
passed to the execute method of the connector, in order. -/
structure RunResult where
  success : Bool
  output : PDict
  state : RunnerSt
  tried : List PyStr
deriving DecidableEq

/-- The per-alias parse dispatch inside the success branch of `run_command`. -/
def parseForAlias (cmdAlias output device_os : PyStr) : PDict :=
  if cmdAlias = pyStr ("version") then parse_show_version output device_os
  else if cmdAlias = pyStr ("bgp_summary") then parse_bgp_summary output device_os
  else [(pyStr ("raw_output"), .s (output.take 200))]

/-- The username-rotation loop of `DeviceCommandRunner.run_command`. -/
def runCommandLoop (ex : ExecOracle) (cmdAlias actual_command : PyStr) :
    List PyStr → RunnerSt → RunResult
  | [], st =>
    { success := false
      output := [(pyStr ("error"), .s (build_auth_failure_message st))]
      state := st
      tried := [] }
  | u :: rest, st =>
    let res := ex st.device_ip u actual_command
    if acceptedOutput res.1 res.2 then
      { success := true
        output := parseForAlias cmdAlias res.2 st.device_os
        state := { st with current_username := some u, authenticated := true }
        tried := [u] }
    else
      let r := runCommandLoop ex cmdAlias actual_command rest
        { st with failed_usernames := st.failed_usernames ++ [u] }
      { r with tried := u :: r.tried }

/-- `DeviceCommandRunner.run_command`. -/
def run_command (ex : ExecOracle) (st : RunnerSt) (cmdAlias : PyStr) : RunResult :=
  match dictGet? (get_available_commands st.device_os) cmdAlias with
  | none =>
    { success := false
      output := [(pyStr ("error"), .s (unsupportedCommandMsg cmdAlias st.device_os))]
      state := st
      tried := [] }
  | some actual_command => runCommandLoop ex cmdAlias actual_command st.usernames st

/-- Python truthiness of `self.current_username` (`None` and the empty
string are falsy). -/
def optFalsy : Option PyStr → Bool
  | none => true
  | some s => s.isEmpty

/-- The result of one `run_custom_command` invocation, with the ordered
list of usernames passed to the execute method of the connector. -/
structure CustomResult where
  success : Bool
  output : PyStr
  state : RunnerSt
  tried : List PyStr
deriving DecidableEq

/-- `DeviceCommandRunner.run_custom_command`: re-authenticate via
`run_command("version")` only when both `authenticated` and
`current_username` are falsy, then execute under `current_username`
(a `None` username renders as the string "None" in the ssh command line). -/
def run_custom_command (ex : ExecOracle) (st : RunnerSt) (command : PyStr) : CustomResult :=
  if !st.authenticated && optFalsy st.current_username then
    let r := run_command ex st (pyStr ("version"))
    if !r.success then
      { success := false
        output := pyStr ("[!] Failed to authenticate to device")
        state := r.state
        tried := r.tried }
    else
      let u := r.state.current_username.getD (pyStr ("None"))
      let res := ex r.state.device_ip u command
      { success := res.1, output := res.2, state := r.state, tried := r.tried ++ [u] }
  else
    let u := st.current_username.getD (pyStr ("None"))
    let res := ex st.device_ip u command
    { success := res.1, output := res.2, state := st, tried := [u] }

/-! ## Jumpbox session handler (`nre_jumpbox.py`, class `NREJumpbox`)

`_try_connect` performs network and filesystem effects (SSH keys,
paramiko); it is modelled as an oracle `PyStr → Bool` giving the per-host
outcome (`False` covers authentication failure and timeouts alike). -/

/-- The connection-relevant attributes of an `NREJumpbox`. -/
structure JumpboxSt where
  primary_host : PyStr
  fallback_host : PyStr
  connected : Bool
  current_host : Option PyStr
deriving DecidableEq

/-- `NREJumpbox` with the default `NREJumpboxConfig` before any connect. -/
def initJumpbox : JumpboxSt :=
  { primary_host := pyStr ("oser500521")
    fallback_host := pyStr ("oser500522")
    connected := false
    current_host := none }

/-- `NREJumpbox._format_hostname`. -/
def format_hostname (h : PyStr) : PyStr := pyLower h

/-- The host loop of `NREJumpbox.connect`, returning success, the new
state and the hosts attempted in order. -/
def jumpboxConnectLoop (tryC : PyStr → Bool) (st : JumpboxSt) :
    List PyStr → Bool × JumpboxSt × List PyStr
  | [] => (false, st, [])
  | h :: rest =>
    if tryC h then
      (true, { st with connected := true, current_host := some h }, [h])
    else
      let r := jumpboxConnectLoop tryC st rest
      (r.1, r.2.1, h :: r.2.2)

/-- `NREJumpbox.connect`: formatted primary host first, then fallback. -/
def jumpbox_connect (tryC : PyStr → Bool) (st : JumpboxSt) :
    Bool × JumpboxSt × List PyStr :=
  jumpboxConnectLoop tryC st
    [format_hostname st.primary_host, format_hostname st.fallback_host]

/-! ## Disconnect paths (`ssh_remote.py` `SSHConnection`, `bastion_manager.py`) -/

/-- The connection-relevant attributes of an `SSHConnection`:
`ssh_client` is `none` when no paramiko client object was ever created,
`some b` when one exists with `b` recording whether it is open. -/
structure SSHConnSt where
  ssh_client : Option Bool
  connected : Bool
deriving DecidableEq

/-- A fresh `SSHConnection` (never connected). -/
def initSSHConn : SSHConnSt := { ssh_client := none, connected := false }

/-- `SSHConnection.connect_to_jumphost`, with the bastion-manager and
paramiko outcomes as Booleans: on bastion success only `connected` is
set (no paramiko client is created); otherwise a paramiko client is
created and, on success, `connected` is set. -/
def connect_to_jumphost (bastionOk sshOk : Bool) (st : SSHConnSt) : Bool × SSHConnSt :=
  if bastionOk then (true, { st with connected := true })
  else if sshOk then (true, { ssh_client := some true, connected := true })
  else (false, { st with ssh_client := some false })

/-- `SSHConnection.disconnect`: only when a client object exists is it
closed and the `connected` flag cleared. -/
def ssh_disconnect (st : SSHConnSt) : SSHConnSt :=
  match st.ssh_client with
  | some _ => { ssh_client := some false, connected := false }
  | none => st

/-- The connection-relevant attribute of a `BastionManager`. -/
structure BastionSt where
  connected : Bool
deriving DecidableEq

/-- `BastionManager.disconnect`: unconditionally clears `connected`
(the gcloud branch is a `pass`). -/
def bastion_disconnect (st : BastionSt) : BastionSt := { st with connected := false }

/-! ## Shared concrete fixtures for the runner claims -/

/-- A fresh `DeviceCommandRunner` right after `__init__` with an
explicit username list. -/
def freshRunner (ipa os : PyStr) (users : List PyStr) : RunnerSt :=
  { device_ip := ipa
    device_os := os
    usernames := users
    current_username := none
    authenticated := false
    failed_usernames := [] }

/-- The three-candidate list of the acceptance scenario in the specification. -/
def threeUsers : List PyStr := [pyStr ("admin"), pyStr ("netadmin"), pyStr ("neteng")]

/-- A connector oracle that succeeds with clean output only for the
username "neteng" and answers "Permission denied" to everyone else. -/
def exNeteng : ExecOracle := fun _ u _ =>
  if u == pyStr ("neteng") then (true, pyStr ("ok")) else (true, pyStr ("Permission denied"))

/-- A connector oracle whose every answer contains "Permission denied". -/
def exDenyAll : ExecOracle := fun _ _ _ => (true, pyStr ("Permission denied"))

/-- A connector oracle that reports success but produces empty output. -/
def exEmptyOut : ExecOracle := fun _ _ _ => (true, [])

/-- The runner state after exhausting every candidate of a fresh runner:
all candidates recorded as failed. -/
def exhaustedRunner (ipa os : PyStr) (users : List PyStr) : RunnerSt :=
  { device_ip := ipa
    device_os := os
    usernames := users
    current_username := none
    authenticated := false
    failed_usernames := users }

/-- No ASCII uppercase letter occurs in the string. -/
def noUpperAscii (s : PyStr) : Bool := s.all (fun c => !isUpperCp c)

/-! ## Helper lemmas -/

lemma isUpperCp_charLowerCp (c : Nat) : isUpperCp (charLowerCp c) = false := by
  unfold charLowerCp
  by_cases h : isUpperCp c = true
  · rw [if_pos h]
    unfold isUpperCp at h ⊢
    simp only [Bool.and_eq_true, decide_eq_true_eq] at h
    have h90 : ¬ (c + 32 ≤ 90) := by omega
    simp [h90]
  · rw [if_neg h]
    exact Bool.not_eq_true _ |>.mp h

lemma noUpperAscii_pyLower (s : PyStr) : noUpperAscii (pyLower s) = true := by
  unfold noUpperAscii pyLower
  rw [List.all_map, List.all_eq_true]
  intro x _
  simp [Function.comp, isUpperCp_charLowerCp]

lemma permission_denied_lower {o : PyStr}
    (h : pyIn (pyStr ("Permission denied")) o = true) :
    pyIn (pyStr ("permission denied")) (pyLower o) = true := by
  unfold pyIn at h ⊢
  rw [decide_eq_true_eq] at h ⊢
  have hmap := List.IsInfix.map charLowerCp h
  have e : (pyStr ("Permission denied")).map charLowerCp = pyStr ("permission denied") := by
    decide
  rw [e] at hmap
  exact hmap

/-! ## C7 -/

/-- C7: `_normalize_os_type` is a total function (it never throws), and
on every input string — including the empty string and strings outside
the normalization table — it returns a non-empty tag containing no
uppercase ASCII letter; determinism is immediate since it is a pure
function of its argument. -/
theorem C7_normalize_os_type_total (s : PyStr) :
    normalize_os_type s ≠ [] ∧ noUpperAscii (normalize_os_type s) = true := by
  have hval : ∀ kv ∈ OS_TYPES, kv.2 ≠ [] ∧ noUpperAscii kv.2 = true := by decide
  unfold normalize_os_type
  cases h1 : OS_TYPES.find? (fun kv => kv.1 == pyStrip (pyUpper s)) with
  | some kv =>
    simp only [h1]
    exact hval kv (List.mem_of_find?_eq_some h1)
  | none =>
    simp only [h1]
    cases h2 : OS_TYPES.find?
        (fun kv => pyIn kv.1 (pyStrip (pyUpper s)) || pyIn (pyStrip (pyUpper s)) kv.1) with
    | some kv =>
      simp only [h2]
      exact hval kv (List.mem_of_find?_eq_some h2)
    | none =>
      simp only [h2]
      have hne : pyStrip (pyUpper s) ≠ [] := by
        intro hnil
        have hmem : (pyStr ("IOS"), pyStr ("cisco_ios")) ∈ OS_TYPES := by decide
        have := List.find?_eq_none.mp h2 _ hmem
        rw [hnil] at this
        simp [pyIn] at this
      refine ⟨?_, noUpperAscii_pyLower _⟩
      intro hc
      exact hne (by simpa [pyLower] using hc)

/-! ## C3 -/

/-- C3: for every (normalized) OS tag, the username list built by
`_build_username_list` has no duplicate entries and refines the shape
the specification describes (`specUsernameList`): device-specific names
first, then the global defaults minus duplicates, then — only for tags
containing "cisco" — the remaining Cisco extras not already present,
preserving first-occurrence order throughout.  Determinism is immediate
since it is a pure function of the tag. -/
theorem C3_build_username_list_shape (os : PyStr) :
    (build_username_list os).Nodup ∧ build_username_list os = specUsernameList os := by
  unfold build_username_list specUsernameList dictGet?
  cases hf : DEVICE_SPECIFIC_USERNAMES.find? (fun kv => kv.1 == os) with
  | none =>
    simp only [hf, Option.map_none', Option.getD_none]
    cases hc : pyIn (pyStr ("cisco")) (pyLower os) with
    | false => simp only [hc, if_false, Bool.false_eq_true]; decide
    | true => simp only [hc, if_true]; decide
  | some kv =>
    have hos : kv.1 = os := by
      have := List.find?_some hf
      exact eq_of_beq this
    have hmem := List.mem_of_find?_eq_some hf
    subst hos
    simp only [hf, Option.map_some', Option.getD_some]
    simp only [DEVICE_SPECIFIC_USERNAMES, List.mem_cons, List.not_mem_nil, or_false] at hmem
    rcases hmem with h | h | h | h <;> rw [h] <;> decide

/-! ## C2 -/

lemma version_fallback (output os : PyStr) (h : versionFields output os = []) :
    parse_show_version output os =
      [(pyStr ("raw_output"), PVal.s (if knownOsTag os then output.take 500 else output))] := by
  by_cases h1 : os = pyStr ("cisco_ios")
  · subst h1
    have h' : ciscoVersionData output = [] := h
    show parseCiscoVersion output = [(pyStr ("raw_output"), PVal.s (output.take 500))]
    unfold parseCiscoVersion pyDictOr
    rw [h']
    rfl
  · by_cases h2 : os = pyStr ("arista_eos")
    · subst h2
      have h' : aristaVersionData output = [] := h
      show parseAristaVersion output = [(pyStr ("raw_output"), PVal.s (output.take 500))]
      unfold parseAristaVersion pyDictOr
      rw [h']
      rfl
    · by_cases h3 : os = pyStr ("juniper_junos")
      · subst h3
        have h' : juniperVersionData output = [] := h
        show parseJuniperVersion output = [(pyStr ("raw_output"), PVal.s (output.take 500))]
        unfold parseJuniperVersion pyDictOr
        rw [h']
        rfl
      · by_cases h4 : os = pyStr ("sonic_cli")
        · subst h4
          have h' : sonicVersionData output = [] := h
          show parseSonicVersion output = [(pyStr ("raw_output"), PVal.s (output.take 500))]
          unfold parseSonicVersion pyDictOr
          rw [h']
          rfl
        · unfold parse_show_version
          rw [if_neg h1, if_neg h2, if_neg h3, if_neg h4]
          have hk : knownOsTag os = false := by
            unfold knownOsTag
            simp [h1, h2, h3, h4]
          simp [hk]

lemma bgp_fallback (output os : PyStr) (h : bgpFields output os = []) :
    parse_bgp_summary output os =
      [(pyStr ("raw_output"), PVal.s (if knownOsTag os then output.take 500 else output))] := by
  by_cases h1 : os = pyStr ("cisco_ios")
  · subst h1
    have h' : ciscoBgpData output = [] := h
    show parseCiscoBgp output = [(pyStr ("raw_output"), PVal.s (output.take 500))]
    unfold parseCiscoBgp pyDictOr
    rw [h']
    rfl
  · by_cases h2 : os = pyStr ("arista_eos")
    · subst h2
      have h' : aristaBgpData output = [] := h
      show parseAristaBgp output = [(pyStr ("raw_output"), PVal.s (output.take 500))]
      unfold parseAristaBgp pyDictOr
      rw [h']
      rfl
    · by_cases h3 : os = pyStr ("juniper_junos")
      · subst h3
        have h' : juniperBgpData output = [] := h
        show parseJuniperBgp output = [(pyStr ("raw_output"), PVal.s (output.take 500))]
        unfold parseJuniperBgp pyDictOr
        rw [h']
        rfl
      · by_cases h4 : os = pyStr ("sonic_cli")
        · subst h4
          have h' : sonicBgpData output = [] := h
          show parseSonicBgp output = [(pyStr ("raw_output"), PVal.s (output.take 500))]
          unfold parseSonicBgp pyDictOr
          rw [h']
          rfl
        · unfold parse_bgp_summary
          rw [if_neg h1, if_neg h2, if_neg h3, if_neg h4]
          have hk : knownOsTag os = false := by
            unfold knownOsTag
            simp [h1, h2, h3, h4]
          simp [hk]

/-- C2 counterexample: for an OS tag outside the known enumeration the
raw-text fallback stores the whole input, not a 500-character prefix —
on a 501-character input the single `raw_output` value has length 501. -/
theorem C2_counterexample :
    parse_show_version (List.replicate 501 97) (pyStr ("zzz")) =
      [(pyStr ("raw_output"), PVal.s (List.replicate 501 97))] ∧
    500 < (List.replicate 501 97).length := by
  constructor
  · rfl
  · rw [List.length_replicate]
    omega

/-- C2 (amended): whenever the field extraction comes up empty, both
parsers return exactly the single-key `raw_output` mapping — never an
empty mapping; its value is the first 500 characters of the input for
the four known OS tags, but the *whole* input for any tag outside the
known enumeration. -/
theorem C2_raw_fallback (output os : PyStr)
    (h1 : versionFields output os = []) (h2 : bgpFields output os = []) :
    parse_show_version output os =
      [(pyStr ("raw_output"), PVal.s (if knownOsTag os then output.take 500 else output))] ∧
    parse_bgp_summary output os =
      [(pyStr ("raw_output"), PVal.s (if knownOsTag os then output.take 500 else output))] :=
  ⟨version_fallback output os h1, bgp_fallback output os h2⟩

/-- Witness for C2: on the pattern-free input "hello" under the
`cisco_ios` tag both extractions are empty and the parser returns the
500-character-capped raw fallback. -/
theorem C2_raw_fallback_witness :
    versionFields (pyStr ("hello")) (pyStr ("cisco_ios")) = [] ∧
    bgpFields (pyStr ("hello")) (pyStr ("cisco_ios")) = [] ∧
    parse_show_version (pyStr ("hello")) (pyStr ("cisco_ios")) =
      [(pyStr ("raw_output"), PVal.s ((pyStr ("hello")).take 500))] := by
  refine ⟨by decide, by decide, ?_⟩
  exact (C2_raw_fallback (pyStr ("hello")) (pyStr ("cisco_ios")) (by decide) (by decide)).1

/-! ## C6 -/

/-- C6: when the alias is absent from the per-OS command table,
`run_command` fails immediately with the unsupported-command error:
no username is attempted (zero execute calls) and the runner state —
`failed_usernames` included — is unchanged. -/
theorem C6_unsupported_command (ex : ExecOracle) (st : RunnerSt) (cmdAlias : PyStr)
    (h : dictGet? (get_available_commands st.device_os) cmdAlias = none) :
    run_command ex st cmdAlias =
      { success := false
        output := [(pyStr ("error"), .s (unsupportedCommandMsg cmdAlias st.device_os))]
        state := st
        tried := [] } := by
  unfold run_command
  rw [h]

/-- Witness for C6: the alias "frobnicate" is not in the cisco_ios
table; `run_command` returns the error without touching the connector. -/
theorem C6_unsupported_command_witness :
    dictGet? (get_available_commands (pyStr ("cisco_ios"))) (pyStr ("frobnicate")) = none ∧
    run_command exDenyAll (freshRunner (pyStr ("10.0.0.1")) (pyStr ("cisco_ios")) threeUsers)
        (pyStr ("frobnicate")) =
      { success := false
        output := [(pyStr ("error"),
          .s (unsupportedCommandMsg (pyStr ("frobnicate")) (pyStr ("cisco_ios"))))]
        state := freshRunner (pyStr ("10.0.0.1")) (pyStr ("cisco_ios")) threeUsers
        tried := [] } := by
  refine ⟨by decide, ?_⟩
  exact C6_unsupported_command exDenyAll
    (freshRunner (pyStr ("10.0.0.1")) (pyStr ("cisco_ios")) threeUsers)
    (pyStr ("frobnicate")) (by decide)

/-! ## C10 -/

/-- C10: an attempt whose execute returns success together with the
*empty* output string is not accepted: the candidate is appended to
`failed_usernames` and the rotation moves on to the remaining
candidates, leaving `current_username` untouched — acceptance requires
non-empty output besides success and the absence of "permission denied". -/
theorem C10_empty_output_rejected (ex : ExecOracle) (cmdAlias actual_command u : PyStr)
    (rest : List PyStr) (st : RunnerSt)
    (h : ex st.device_ip u actual_command = (true, [])) :
    runCommandLoop ex cmdAlias actual_command (u :: rest) st =
      (let r := runCommandLoop ex cmdAlias actual_command rest
        { st with failed_usernames := st.failed_usernames ++ [u] };
       { r with tried := u :: r.tried }) := by
  have hb : acceptedOutput true [] = false := by decide
  simp only [runCommandLoop, h, hb]
  rfl

/-- Witness for C10: a success-with-empty-output oracle on a single
candidate leads to rejection and continuation into the exhausted branch. -/
theorem C10_empty_output_rejected_witness :
    exEmptyOut (pyStr ("10.0.0.1")) (pyStr ("admin")) (pyStr ("show version")) = (true, []) ∧
    runCommandLoop exEmptyOut (pyStr ("version")) (pyStr ("show version"))
        [pyStr ("admin")] (freshRunner (pyStr ("10.0.0.1")) (pyStr ("cisco_ios")) threeUsers) =
      (let r := runCommandLoop exEmptyOut (pyStr ("version")) (pyStr ("show version")) []
        { freshRunner (pyStr ("10.0.0.1")) (pyStr ("cisco_ios")) threeUsers with
          failed_usernames :=
            (freshRunner (pyStr ("10.0.0.1")) (pyStr ("cisco_ios")) threeUsers).failed_usernames
              ++ [pyStr ("admin")] };
       { r with tried := pyStr ("admin") :: r.tried }) :=
  ⟨rfl, C10_empty_output_rejected exEmptyOut (pyStr ("version")) (pyStr ("show version"))
    (pyStr ("admin")) [] (freshRunner (pyStr ("10.0.0.1")) (pyStr ("cisco_ios")) threeUsers) rfl⟩

/-! ## C4 -/

/-- C4 counterexample: the acceptance rule as claimed (success and no
"permission denied") accepts a successful execute with empty output,
but `run_command` rejects exactly that attempt — the code additionally
requires non-empty output, so acceptance is not "exactly per the rule". -/
theorem C4_counterexample :
    claimedAccept true [] = true ∧
    acceptedOutput true [] = false ∧
    (run_command exEmptyOut (freshRunner (pyStr ("10.0.0.1")) (pyStr ("cisco_ios"))
        [pyStr ("admin")]) (pyStr ("version"))).success = false ∧
    (run_command exEmptyOut (freshRunner (pyStr ("10.0.0.1")) (pyStr ("cisco_ios"))
        [pyStr ("admin")]) (pyStr ("version"))).state.failed_usernames = [pyStr ("admin")] := by
  refine ⟨by decide, by decide, ?_, ?_⟩ <;> decide

/-- C4 (amended): with candidates ["admin","netadmin","neteng"] and a
connector accepted only for "neteng" — acceptance meaning success *and
non-empty output* and no case-insensitive "permission denied" —
`run_command("version")` tries the candidates strictly in order, accepts
on the third attempt, returns success, caches `current_username =
"neteng"` and records `failed_usernames = ["admin","netadmin"]`. -/
theorem C4_accept_on_third (ex : ExecOracle) (ipa : PyStr)
    (h1 : acceptedOutput (ex ipa (pyStr ("admin")) (pyStr ("show version"))).1
            (ex ipa (pyStr ("admin")) (pyStr ("show version"))).2 = false)
    (h2 : acceptedOutput (ex ipa (pyStr ("netadmin")) (pyStr ("show version"))).1
            (ex ipa (pyStr ("netadmin")) (pyStr ("show version"))).2 = false)
    (h3 : acceptedOutput (ex ipa (pyStr ("neteng")) (pyStr ("show version"))).1
            (ex ipa (pyStr ("neteng")) (pyStr ("show version"))).2 = true) :
    (run_command ex (freshRunner ipa (pyStr ("cisco_ios")) threeUsers)
        (pyStr ("version"))).tried = threeUsers ∧
    (run_command ex (freshRunner ipa (pyStr ("cisco_ios")) threeUsers)
        (pyStr ("version"))).success = true ∧
    (run_command ex (freshRunner ipa (pyStr ("cisco_ios")) threeUsers)
        (pyStr ("version"))).state.current_username = some (pyStr ("neteng")) ∧
    (run_command ex (freshRunner ipa (pyStr ("cisco_ios")) threeUsers)
        (pyStr ("version"))).state.authenticated = true ∧
    (run_command ex (freshRunner ipa (pyStr ("cisco_ios")) threeUsers)
        (pyStr ("version"))).state.failed_usernames =
      [pyStr ("admin"), pyStr ("netadmin")] := by
  have hcmd : dictGet? (get_available_commands (pyStr ("cisco_ios"))) (pyStr ("version")) =
      some (pyStr ("show version")) := by decide
  have hrun : run_command ex (freshRunner ipa (pyStr ("cisco_ios")) threeUsers)
      (pyStr ("version")) =
      { success := true
        output := parseForAlias (pyStr ("version"))
          (ex ipa (pyStr ("neteng")) (pyStr ("show version"))).2 (pyStr ("cisco_ios"))
        state :=
          { device_ip := ipa
            device_os := pyStr ("cisco_ios")
            usernames := threeUsers
            current_username := some (pyStr ("neteng"))
            authenticated := true
            failed_usernames := [pyStr ("admin"), pyStr ("netadmin")] }
        tried := threeUsers } := by
    unfold run_command
    rw [show (freshRunner ipa (pyStr ("cisco_ios")) threeUsers).device_os =
      pyStr ("cisco_ios") from rfl, hcmd]
    show runCommandLoop ex (pyStr ("version")) (pyStr ("show version")) threeUsers
      (freshRunner ipa (pyStr ("cisco_ios")) threeUsers) = _
    simp only [threeUsers, freshRunner, runCommandLoop, h1, h2, h3,
      Bool.false_eq_true, if_false, if_true, List.nil_append, List.singleton_append,
      List.append_nil]
  rw [hrun]
  exact ⟨rfl, rfl, rfl, rfl, rfl⟩

/-- Witness for C4: the concrete connector `exNeteng` realizes the
scenario; acceptance happens on the third attempt. -/
theorem C4_accept_on_third_witness :
    acceptedOutput (exNeteng (pyStr ("10.0.0.1")) (pyStr ("admin")) (pyStr ("show version"))).1
        (exNeteng (pyStr ("10.0.0.1")) (pyStr ("admin")) (pyStr ("show version"))).2 = false ∧
    acceptedOutput (exNeteng (pyStr ("10.0.0.1")) (pyStr ("neteng")) (pyStr ("show version"))).1
        (exNeteng (pyStr ("10.0.0.1")) (pyStr ("neteng")) (pyStr ("show version"))).2 = true ∧
    (run_command exNeteng (freshRunner (pyStr ("10.0.0.1")) (pyStr ("cisco_ios")) threeUsers)
        (pyStr ("version"))).state.current_username = some (pyStr ("neteng")) ∧
    (run_command exNeteng (freshRunner (pyStr ("10.0.0.1")) (pyStr ("cisco_ios")) threeUsers)
        (pyStr ("version"))).state.failed_usernames = [pyStr ("admin"), pyStr ("netadmin")] := by
  refine ⟨by decide, by decide, ?_, ?_⟩
  · exact (C4_accept_on_third exNeteng (pyStr ("10.0.0.1"))
      (by decide) (by decide) (by decide)).2.2.1
  · exact (C4_accept_on_third exNeteng (pyStr ("10.0.0.1"))
      (by decide) (by decide) (by decide)).2.2.2.2

/-! ## C5 -/

lemma loop_all_denied (ex : ExecOracle) (cmdAlias actual : PyStr) :
    ∀ (users : List PyStr) (st : RunnerSt),
      (∀ u ∈ users, pyIn (pyStr ("Permission denied")) ((ex st.device_ip u actual).2) = true) →
      runCommandLoop ex cmdAlias actual users st =
        { success := false
          output := [(pyStr ("error"), .s (build_auth_failure_message
            { st with failed_usernames := st.failed_usernames ++ users }))]
          state := { st with failed_usernames := st.failed_usernames ++ users }
          tried := users } := by
  intro users
  induction users with
  | nil =>
    intro st _
    simp [runCommandLoop]
  | cons u rest ih =>
    intro st h
    have hrej : acceptedOutput (ex st.device_ip u actual).1
        (ex st.device_ip u actual).2 = false := by
      have hl := permission_denied_lower (h u (by simp))
      unfold acceptedOutput
      rw [hl]
      simp
    simp only [runCommandLoop, hrej]
    rw [ih { st with failed_usernames := st.failed_usernames ++ [u] }
      (fun v hv => h v (List.mem_cons_of_mem u hv))]
    simp [List.append_assoc]

/-- C5: when the output of every attempt contains "Permission denied",
`run_command` (on a fresh runner with a non-empty candidate list whose
alias is in the command table) returns failure, the failed-username
record equals the whole candidate list (same length), and the
diagnostic message contains the tried-username sample capped at three
names, the static troubleshooting guidance, and the device OS tag. -/
theorem C5_all_denied_diagnostics (ex : ExecOracle) (ipa os cmdAlias actual : PyStr)
    (users : List PyStr) (_hne : users ≠ [])
    (hcmd : dictGet? (get_available_commands os) cmdAlias = some actual)
    (hall : ∀ u ∈ users, pyIn (pyStr ("Permission denied")) ((ex ipa u actual).2) = true) :
    (run_command ex (freshRunner ipa os users) cmdAlias).success = false ∧
    (run_command ex (freshRunner ipa os users) cmdAlias).state.failed_usernames = users ∧
    (run_command ex (freshRunner ipa os users) cmdAlias).state.failed_usernames.length =
      users.length ∧
    (run_command ex (freshRunner ipa os users) cmdAlias).output =
      [(pyStr ("error"), PVal.s (build_auth_failure_message
        (run_command ex (freshRunner ipa os users) cmdAlias).state))] ∧
    (users.take 3).length ≤ 3 ∧
    List.IsInfix (List.intercalate (pyStr (", ")) (users.take 3))
      (build_auth_failure_message (run_command ex (freshRunner ipa os users) cmdAlias).state) ∧
    List.IsInfix (pyStr ("Troubleshooting steps:"))
      (build_auth_failure_message (run_command ex (freshRunner ipa os users) cmdAlias).state) ∧
    List.IsInfix os
      (build_auth_failure_message (run_command ex (freshRunner ipa os users) cmdAlias).state) := by
  have hrun : run_command ex (freshRunner ipa os users) cmdAlias =
      { success := false
        output := [(pyStr ("error"), .s (build_auth_failure_message
          (exhaustedRunner ipa os users)))]
        state := exhaustedRunner ipa os users
        tried := users } := by
    unfold run_command
    rw [show (freshRunner ipa os users).device_os = os from rfl, hcmd]
    show runCommandLoop ex cmdAlias actual users (freshRunner ipa os users) = _
    rw [loop_all_denied ex cmdAlias actual users (freshRunner ipa os users)
      (fun u hu => hall u hu)]
    simp [freshRunner, exhaustedRunner]
  rw [hrun]
  have e1 : build_auth_failure_message (exhaustedRunner ipa os users) =
      (pyStr ("Authentication failed. ") ++ pyStr ("Tried ") ++ natToStr users.length ++
        pyStr (" username(s): ")) ++
      (List.intercalate (pyStr (", ")) (users.take 3)) ++
      (pyStr ("\n\nTroubleshooting steps:\n") ++
        pyStr ("1. Check device SSH config: show ip ssh\n") ++
        pyStr ("2. Check your user account exists on device\n") ++
        pyStr ("3. Verify your AD account has device access\n") ++
        pyStr ("4. Contact network team: nocenterprise@wal-mart.com\n") ++
        pyStr ("\nNote: This device requires specific username(s).") ++
        pyStr ("\nDevice type: ") ++ os) := by
    unfold build_auth_failure_message exhaustedRunner
    simp [List.append_assoc]
  have e3 : build_auth_failure_message (exhaustedRunner ipa os users) =
      (pyStr ("Authentication failed. ") ++ pyStr ("Tried ") ++ natToStr users.length ++
        pyStr (" username(s): ") ++ List.intercalate (pyStr (", ")) (users.take 3) ++
        pyStr ("\n\nTroubleshooting steps:\n") ++
        pyStr ("1. Check device SSH config: show ip ssh\n") ++
        pyStr ("2. Check your user account exists on device\n") ++
        pyStr ("3. Verify your AD account has device access\n") ++
        pyStr ("4. Contact network team: nocenterprise@wal-mart.com\n") ++
        pyStr ("\nNote: This device requires specific username(s).") ++
        pyStr ("\nDevice type: ")) ++ os := by
    unfold build_auth_failure_message exhaustedRunner
    simp [List.append_assoc]
  refine ⟨rfl, rfl, rfl, rfl, ?_, ?_, ?_, ?_⟩
  · exact List.length_take_le 3 users
  · rw [e1]
    exact List.infix_append _ _ _
  · have hts : pyStr ("Troubleshooting steps:") <:+:
        pyStr ("\n\nTroubleshooting steps:\n") := by decide
    refine hts.trans ?_
    rw [e1]
    have : pyStr ("\n\nTroubleshooting steps:\n") <:+:
        (pyStr ("\n\nTroubleshooting steps:\n") ++
          pyStr ("1. Check device SSH config: show ip ssh\n") ++
          pyStr ("2. Check your user account exists on device\n") ++
          pyStr ("3. Verify your AD account has device access\n") ++
          pyStr ("4. Contact network team: nocenterprise@wal-mart.com\n") ++
          pyStr ("\nNote: This device requires specific username(s).") ++
          pyStr ("\nDevice type: ") ++ os) := by
      refine ⟨[], ?_, ?_⟩
      · exact pyStr ("1. Check device SSH config: show ip ssh\n") ++
          pyStr ("2. Check your user account exists on device\n") ++
          pyStr ("3. Verify your AD account has device access\n") ++
          pyStr ("4. Contact network team: nocenterprise@wal-mart.com\n") ++
          pyStr ("\nNote: This device requires specific username(s).") ++
          pyStr ("\nDevice type: ") ++ os
      · simp [List.append_assoc]
    refine this.trans ?_
    exact ⟨(pyStr ("Authentication failed. ") ++ pyStr ("Tried ") ++ natToStr users.length ++
      pyStr (" username(s): ")) ++ (List.intercalate (pyStr (", ")) (users.take 3)), [],
      by simp [List.append_assoc]⟩
  · rw [e3]
    exact (List.suffix_append _ os).isInfix

/-- Witness for C5: two candidates, every answer contains
"Permission denied"; the record covers both and the message carries the
sample, the guidance, and the OS tag. -/
theorem C5_all_denied_diagnostics_witness :
    (run_command exDenyAll (freshRunner (pyStr ("10.0.0.1")) (pyStr ("cisco_ios"))
        [pyStr ("admin"), pyStr ("netadmin")]) (pyStr ("version"))).success = false ∧
    (run_command exDenyAll (freshRunner (pyStr ("10.0.0.1")) (pyStr ("cisco_ios"))
        [pyStr ("admin"), pyStr ("netadmin")]) (pyStr ("version"))).state.failed_usernames.length
      = 2 ∧
    List.IsInfix (pyStr ("Troubleshooting steps:"))
      (build_auth_failure_message
        (run_command exDenyAll (freshRunner (pyStr ("10.0.0.1")) (pyStr ("cisco_ios"))
          [pyStr ("admin"), pyStr ("netadmin")]) (pyStr ("version"))).state) := by
  have h := C5_all_denied_diagnostics exDenyAll (pyStr ("10.0.0.1")) (pyStr ("cisco_ios"))
    (pyStr ("version")) (pyStr ("show version")) [pyStr ("admin"), pyStr ("netadmin")]
    (by decide) (by decide) (by decide)
  refine ⟨h.1, ?_, h.2.2.2.2.2.2.1⟩
  rw [h.2.2.1]
  rfl

/-! ## C1 -/

/-- C1 counterexample: after a first successful `run_command` cached
`current_username = "neteng"`, a *second* `run_command` call still
attempts the whole candidate list — including "admin" and "netadmin",
usernames other than the cached one — so the cached username is not
reused by `run_command`. -/
theorem C1_counterexample :
    (run_command exNeteng (freshRunner (pyStr ("10.0.0.1")) (pyStr ("cisco_ios")) threeUsers)
        (pyStr ("version"))).state.current_username = some (pyStr ("neteng")) ∧
    (run_command exNeteng
        (run_command exNeteng (freshRunner (pyStr ("10.0.0.1")) (pyStr ("cisco_ios")) threeUsers)
          (pyStr ("version"))).state
        (pyStr ("version"))).tried =
      [pyStr ("admin"), pyStr ("netadmin"), pyStr ("neteng")] := by
  constructor <;> decide

/-- C1 (amended): the accepted username cached in `current_username` is
reused for subsequent *custom* commands: `run_custom_command` on a
runner with a non-empty cached username issues exactly one execute call,
under that username, with no re-authentication and no state change
(`run_command` itself, by contrast, re-iterates the candidate list on
every call). -/
theorem C1_cached_username_reused (ex : ExecOracle) (st : RunnerSt) (command u : PyStr)
    (h1 : st.current_username = some u) (h2 : u ≠ []) :
    run_custom_command ex st command =
      { success := (ex st.device_ip u command).1
        output := (ex st.device_ip u command).2
        state := st
        tried := [u] } := by
  have hf : optFalsy st.current_username = false := by
    rw [h1]
    unfold optFalsy
    cases u with
    | nil => exact absurd rfl h2
    | cons c t => rfl
  unfold run_custom_command
  rw [hf]
  simp [h1]

/-- Witness for C1: a runner whose cached username is "neteng" runs a
custom command exactly once, as "neteng". -/
theorem C1_cached_username_reused_witness :
    ({ freshRunner (pyStr ("10.0.0.1")) (pyStr ("cisco_ios")) threeUsers with
        current_username := some (pyStr ("neteng")), authenticated := true
      } : RunnerSt).current_username = some (pyStr ("neteng")) ∧
    pyStr ("neteng") ≠ [] ∧
    run_custom_command exNeteng
      { freshRunner (pyStr ("10.0.0.1")) (pyStr ("cisco_ios")) threeUsers with
        current_username := some (pyStr ("neteng")), authenticated := true }
      (pyStr ("show clock")) =
      { success := (exNeteng (pyStr ("10.0.0.1")) (pyStr ("neteng")) (pyStr ("show clock"))).1
        output := (exNeteng (pyStr ("10.0.0.1")) (pyStr ("neteng")) (pyStr ("show clock"))).2
        state := { freshRunner (pyStr ("10.0.0.1")) (pyStr ("cisco_ios")) threeUsers with
          current_username := some (pyStr ("neteng")), authenticated := true }
        tried := [pyStr ("neteng")] } := by
  refine ⟨rfl, by decide, ?_⟩
  exact C1_cached_username_reused exNeteng
    { freshRunner (pyStr ("10.0.0.1")) (pyStr ("cisco_ios")) threeUsers with
      current_username := some (pyStr ("neteng")), authenticated := true }
    (pyStr ("show clock")) (pyStr ("neteng")) rfl (by decide)

/-! ## C8 -/

/-- C8: `connect()` attempts the primary host first and the fallback
second; when the primary attempt fails and the fallback authenticates,
`connect()` returns success attributed to the fallback host
(`current_host` = fallback, `connected` = true) and the attempt list is
exactly [primary, fallback] — nothing after the first host to connect. -/
theorem C8_fallback_failover (tryC : PyStr → Bool)
    (hp : tryC (pyStr ("oser500521")) = false)
    (hf : tryC (pyStr ("oser500522")) = true) :
    jumpbox_connect tryC initJumpbox =
      (true,
       { initJumpbox with connected := true, current_host := some (pyStr ("oser500522")) },
       [pyStr ("oser500521"), pyStr ("oser500522")]) := by
  show jumpboxConnectLoop tryC initJumpbox
    [pyStr ("oser500521"), pyStr ("oser500522")] = _
  simp only [jumpboxConnectLoop, hp, hf]
  rfl

/-- Witness for C8: the oracle accepting only "oser500522" realizes the
primary-times-out / fallback-succeeds scenario. -/
theorem C8_fallback_failover_witness :
    (fun h => h == pyStr ("oser500522")) (pyStr ("oser500521")) = false ∧
    (fun h => h == pyStr ("oser500522")) (pyStr ("oser500522")) = true ∧
    jumpbox_connect (fun h => h == pyStr ("oser500522")) initJumpbox =
      (true,
       { initJumpbox with connected := true, current_host := some (pyStr ("oser500522")) },
       [pyStr ("oser500521"), pyStr ("oser500522")]) := by
  refine ⟨by decide, by decide, ?_⟩
  exact C8_fallback_failover (fun h => h == pyStr ("oser500522")) (by decide) (by decide)

/-! ## C9 -/

/-- C9 counterexample: a session connected through the bastion manager
has `connected = true` but no paramiko client; `SSHConnection.disconnect`
is then a no-op, leaving `connected = true` — so it is not the case that
after any `disconnect()` call `connected` is false. -/
theorem C9_counterexample :
    (connect_to_jumphost true false initSSHConn).1 = true ∧
    (connect_to_jumphost true false initSSHConn).2.connected = true ∧
    (ssh_disconnect (connect_to_jumphost true false initSSHConn).2).connected = true := by
  decide

/-- C9 (amended): both disconnects are idempotent and never throw; a
never-connected `SSHConnection` stays disconnected; `BastionManager.
disconnect` always clears `connected`; `SSHConnection.disconnect`
clears `connected` exactly when a client handle exists — when the
session was established via the bastion manager (no handle), the flag
is left as it was. -/
theorem C9_disconnect_idempotent (st : SSHConnSt) (bst : BastionSt) :
    ssh_disconnect (ssh_disconnect st) = ssh_disconnect st ∧
    bastion_disconnect (bastion_disconnect bst) = bastion_disconnect bst ∧
    (ssh_disconnect initSSHConn).connected = false ∧
    (bastion_disconnect bst).connected = false ∧
    (ssh_disconnect st).connected =
      (if st.ssh_client.isNone then st.connected else false) := by
  obtain ⟨c, conn⟩ := st
  obtain ⟨bc⟩ := bst
  cases c with
  | none => cases conn <;> cases bc <;> decide
  | some b => cases b <;> cases conn <;> cases bc <;> decide

end TitanMenu
